import Mathlib

/-!
Verification of the SuiVerify settlement microservice.

The development shallowly embeds the settlement controller
(`src/controllers/settlement.controller.ts`), the database service
(`src/services/database.service.ts`, current revision) and the identifier
validators, and proves or refutes the specified properties about them.

The durable store is modelled as a list of rows kept newest-first: the SQL
queries of the service all read in `ORDER BY created_at DESC` order, and an
`INSERT` adds the newest row, so prepending to the list is the faithful
rendering of an insert.
-/

namespace SuiVerify

/-- One character of the `[a-fA-F0-9]` class of the Sui-id regex. -/
def isHexDigit (c : Char) : Bool :=
  (('0' ≤ c && c ≤ '9') || ('a' ≤ c && c ≤ 'f') || ('A' ≤ c && c ≤ 'F'))

/-- One character of the `[1-9A-HJ-NP-Za-km-z]` class (the base-58 alphabet)
of the tx-digest regex. -/
def isBase58Char (c : Char) : Bool :=
  (('1' ≤ c && c ≤ '9') ||
   ('A' ≤ c && c ≤ 'H') || ('J' ≤ c && c ≤ 'N') || ('P' ≤ c && c ≤ 'Z') ||
   ('a' ≤ c && c ≤ 'k') || ('m' ≤ c && c ≤ 'z'))

/-- Function `isValidSuiId` of the controller: the regex test
`/^0x[a-fA-F0-9]{64}$/.test(id)`. -/
def isValidSuiId (s : String) : Bool :=
  s.toList.take 2 == ['0', 'x'] && s.toList.length == 66 &&
    (s.toList.drop 2).all isHexDigit

/-- Function `isValidTxDigest` of the controller: the regex test
`/^[1-9A-HJ-NP-Za-km-z]{43,44}$/.test(digest)`. -/
def isValidTxDigest (s : String) : Bool :=
  (s.toList.length == 43 || s.toList.length == 44) && s.toList.all isBase58Char

/-- The `SettlementRecord` interface of `database.service.ts` (current
revision), as the caller hands it to `storeSettlement`: the optional TS
fields are `Option`s. -/
structure SettlementRecord where
  enclave_tx_digest : String
  did_verified_id : String
  did_nft_name : Option String
  protocol_uid : Nat
  protocol_name : Option String
  protocol_address : Option String
  user_address : String
  payment_tx_digest : String
  settlement_amount : Option Nat
  timestamp : Option Nat
  status : Option String
  deriving Repr, DecidableEq

/-- A materialised row of the `nft_settlements` table, after the
`x || default` normalisations done inside `storeSettlement` and the SQL
column defaults. -/
structure Row where
  enclave_tx_digest : String
  did_verified_id : String
  did_nft_name : Option String
  protocol_uid : Nat
  protocol_name : Option String
  protocol_address : Option String
  user_address : String
  payment_tx_digest : String
  settlement_amount : Option Nat
  timestamp : Nat
  status : String
  deriving Repr, DecidableEq

/-- The `nft_settlements` table, newest row first. -/
abbrev Store : Type := List Row

/-- JavaScript `x || null` on an optional string: `undefined` and the empty
string both collapse to `null`. -/
def jsOrNull (s : Option String) : Option String :=
  match s with
  | none => none
  | some t => if t.isEmpty then none else some t

/-- JavaScript `x || null` on an optional number: `undefined` and `0` both
collapse to `null`. -/
def jsOrNullNat (n : Option Nat) : Option Nat :=
  match n with
  | none => none
  | some k => if k = 0 then none else some k

/-- JavaScript `x || d` on an optional number with a default. -/
def jsOrDefaultNat (n : Option Nat) (d : Nat) : Nat :=
  match n with
  | none => d
  | some k => if k = 0 then d else k

/-- JavaScript `x || d` on an optional string with a default. -/
def jsOrDefault (s : Option String) (d : String) : String :=
  match s with
  | none => d
  | some t => if t.isEmpty then d else t

/-- Errors the store can raise: a unique-constraint violation, carrying the
driver's error message. -/
inductive DbError where
  | duplicateKey : String → DbError
  deriving Repr, DecidableEq

/-- Function `initDatabase` of `database.service.ts` (current revision): it runs
`DROP TABLE IF EXISTS nft_settlements` and then recreates the table (with
`UNIQUE` on `payment_tx_digest` only — `did_verified_id` merely gets a
non-unique index `idx_nft_settlements_did`).  On the state, this empties
the store. -/
def initDatabase (_db : Store) : Store := []

/-- The set of columns the `CREATE TABLE` statement of `initDatabase`
declares `UNIQUE` (besides the serial primary key). -/
def uniqueColumns : List String := ["payment_tx_digest"]

/-- Function `storeSettlement`: `INSERT INTO nft_settlements ... RETURNING *`.  The
insert fails iff a unique constraint is violated, and the only `UNIQUE`
column of the created table is `payment_tx_digest`.  `now` stands for
`Date.now()` used by the `settlement.timestamp || Date.now()` default. -/
def storeSettlement (db : Store) (now : Nat) (s : SettlementRecord) :
    Except DbError Store :=
  if db.any (fun r => r.payment_tx_digest == s.payment_tx_digest) then
    Except.error (DbError.duplicateKey
      "duplicate key value violates unique constraint")
  else
    Except.ok
      ({ enclave_tx_digest := s.enclave_tx_digest
         did_verified_id := s.did_verified_id
         did_nft_name := jsOrNull s.did_nft_name
         protocol_uid := s.protocol_uid
         protocol_name := jsOrNull s.protocol_name
         protocol_address := jsOrNull s.protocol_address
         user_address := s.user_address
         payment_tx_digest := s.payment_tx_digest
         settlement_amount := jsOrNullNat s.settlement_amount
         timestamp := jsOrDefaultNat s.timestamp now
         status := jsOrDefault s.status "success" } :: db)

/-- Function `isNftSettled`: `SELECT id FROM nft_settlements WHERE did_verified_id =
$1 AND status = 'success'`, then `rows.length > 0`. -/
def isNftSettled (db : Store) (didVerifiedId : String) : Bool :=
  db.any (fun r => r.did_verified_id == didVerifiedId && r.status == "success")

/-- Function `getSettlementByNftId`: `SELECT * FROM nft_settlements WHERE
did_verified_id = $1 ORDER BY created_at DESC LIMIT 1`, then
`rows[0] || null`.  On the newest-first store this is the first match. -/
def getSettlementByNftId (db : Store) (didVerifiedId : String) : Option Row :=
  (db.filter (fun r => r.did_verified_id == didVerifiedId)).head?

/-- Function `getSettlementsByUser`: all rows of one user, newest first. -/
def getSettlementsByUser (db : Store) (userAddress : String) : List Row :=
  db.filter (fun r => r.user_address == userAddress)

/-! Protocol configuration, read from `data/protocol-config.json` via
`CONTRACT_CONFIG` in `sui.config.ts` (values as documented in the
repository's README). -/

def PROTOCOL_UID : Nat := 1000

def PROTOCOL_NAME : String := "test"

def PROTOCOL_ADDRESS : String :=
  "0xaa266beb057eeba4f686ef40ab0a8b96da69922fa4f548f2828c441b74398046"

def SETTLEMENT_FEE : Nat := 3000000

/-- The part of a `signAndExecuteTransaction` result the controller reads:
`result.digest`, `result.effects?.status?.status` and
`result.effects?.status?.error`.  The `abortCode` field carries the
on-chain abort code of an aborted call (surfaced by the ledger inside the
effects); the controller never reads it. -/
structure TxResult where
  digest : String
  effectsStatus : Option String
  effectsError : Option String
  abortCode : Option Nat
  deriving Repr, DecidableEq

/-- The test `result.effects?.status?.status === 'success'`. -/
def txSucceeded (r : TxResult) : Bool :=
  r.effectsStatus == some "success"

/-- The JSON body of the settlement request; a field absent from the body
is `none`. -/
structure SettleRequest where
  enclaveTxDigest : Option String
  didVerifiedId : Option String
  didNftName : Option String
  userAddress : Option String
  deriving Repr, DecidableEq

/-- JavaScript truthiness of a possibly-absent string field, as tested by
the controller's `if (!field)` guards: absent and `""` are both falsy. -/
def fieldPresent (s : Option String) : Bool :=
  match s with
  | none => false
  | some t => !t.isEmpty

/-- The `data` object of the 200 response of `settleNftPayment`. -/
structure SuccessPayload where
  enclaveTxDigest : String
  didVerifiedId : String
  didNftName : Option String
  protocolUid : Nat
  protocolName : String
  protocolAddress : String
  userAddress : String
  paymentTxDigest : String
  settlementAmount : Nat
  explorerUrl : String
  deriving Repr, DecidableEq

/-- A JSON response of the settlement controller: the HTTP status, the
shared `success` envelope flag, and the optional fields the controller
sets (`error`, `message`, a `data` that is an existing record on 409, a
`data` that is the settlement payload on 200, and the `digest` attached to
an on-chain failure). -/
structure HttpResponse where
  status : Nat
  success : Bool
  error : Option String
  message : Option String
  record : Option Row
  payload : Option SuccessPayload
  digest : Option String
  deriving Repr, DecidableEq

/-- A 400 rejection `{success:false, error:msg}`. -/
def reject400 (msg : String) : HttpResponse :=
  { status := 400, success := false, error := some msg, message := none
    record := none, payload := none, digest := none }

/-- The 409 conflict response, carrying the existing settlement. -/
def conflict409 (existing : Option Row) : HttpResponse :=
  { status := 409, success := false
    error := some "DID NFT has already been settled", message := none
    record := existing, payload := none, digest := none }

/-- The 500 response of the outer `catch` block. -/
def serverError500 (msg : String) : HttpResponse :=
  { status := 500, success := false, error := some msg, message := none
    record := none, payload := none, digest := none }

/-- The complete observable outcome of one `settleNftPayment` call: the
response, the resulting store, and how many store reads, store writes and
ledger submissions the run performed. -/
structure SettleOutcome where
  response : HttpResponse
  db : Store
  dbReads : Nat
  dbWrites : Nat
  ledgerCalls : Nat
  deriving Repr, DecidableEq

/-- Function `settleNftPayment` of `settlement.controller.ts`, as a function of the
incoming store `db`, the behaviour `ledger` the Sui client would exhibit if
called (`Except.error e` — a thrown transport error with message `e` —
or a returned `TxResult`), the current clock `now` (`Date.now()`), and the
request body.  The field guards, the two id-format checks, the digest
check, the duplicate pre-check, the on-chain call, the status test and the
insert are translated in the controller's order; every thrown error
(transport or storage) lands in the final `catch`, a 500. -/
def settleNftPayment (db : Store) (ledger : Except String TxResult)
    (now : Nat) (req : SettleRequest) : SettleOutcome :=
  if !fieldPresent req.enclaveTxDigest then
    ⟨reject400 "enclaveTxDigest is required", db, 0, 0, 0⟩
  else if !fieldPresent req.didVerifiedId then
    ⟨reject400 "didVerifiedId is required", db, 0, 0, 0⟩
  else if !fieldPresent req.userAddress then
    ⟨reject400 "userAddress is required", db, 0, 0, 0⟩
  else
    let enclaveTxDigest := req.enclaveTxDigest.getD ""
    let didVerifiedId := req.didVerifiedId.getD ""
    let userAddress := req.userAddress.getD ""
    if !isValidSuiId didVerifiedId then
      ⟨reject400 "Invalid didVerifiedId format. Expected 0x + 64 hex characters",
        db, 0, 0, 0⟩
    else if !isValidSuiId userAddress then
      ⟨reject400 "Invalid userAddress format. Expected 0x + 64 hex characters",
        db, 0, 0, 0⟩
    else if !isValidTxDigest enclaveTxDigest then
      ⟨reject400 "Invalid enclaveTxDigest format. Expected base58 transaction digest",
        db, 0, 0, 0⟩
    else if isNftSettled db didVerifiedId then
      ⟨conflict409 (getSettlementByNftId db didVerifiedId), db, 2, 0, 0⟩
    else
      match ledger with
      | Except.error e => ⟨serverError500 e, db, 1, 0, 1⟩
      | Except.ok result =>
        if !txSucceeded result then
          ⟨{ status := 500, success := false
             error := some ("Transaction failed: " ++
               result.effectsError.getD "Unknown error")
             message := none, record := none, payload := none
             digest := some result.digest }, db, 1, 0, 1⟩
        else
          let settlementRecord : SettlementRecord :=
            { enclave_tx_digest := enclaveTxDigest
              did_verified_id := didVerifiedId
              did_nft_name := req.didNftName
              protocol_uid := PROTOCOL_UID
              protocol_name := some PROTOCOL_NAME
              protocol_address := some PROTOCOL_ADDRESS
              user_address := userAddress
              payment_tx_digest := result.digest
              settlement_amount := some SETTLEMENT_FEE
              timestamp := some now
              status := some "success" }
          match storeSettlement db now settlementRecord with
          | Except.error (DbError.duplicateKey msg) =>
            ⟨serverError500 msg, db, 1, 1, 1⟩
          | Except.ok db2 =>
            ⟨{ status := 200, success := true, error := none
               message := some "NFT payment settled successfully"
               record := none
               payload := some
                 { enclaveTxDigest := enclaveTxDigest
                   didVerifiedId := didVerifiedId
                   didNftName := req.didNftName
                   protocolUid := PROTOCOL_UID
                   protocolName := PROTOCOL_NAME
                   protocolAddress := PROTOCOL_ADDRESS
                   userAddress := userAddress
                   paymentTxDigest := result.digest
                   settlementAmount := SETTLEMENT_FEE
                   explorerUrl :=
                     "https://suiscan.xyz/testnet/tx/" ++ result.digest }
               digest := none }, db2, 1, 1, 1⟩

/-- Modelled from the spec: the repository's paginated listing operation
(`listPage(limit?, offset?) -> {items, total}`, the `GET /all` handler)
is documented in the README but its implementation is not among the
source files.  Per the spec it pages, offset-based, over all rows ordered
newest first, and with `limit` absent it returns all rows. -/
def listPage (db : Store) (limit offs : Option Nat) :
    List Row × Nat :=
  match limit with
  | none => (db, db.length)
  | some k => ((db.drop (offs.getD 0)).take k, db.length)

/-! Concrete fixtures, taken from the end-to-end example of the README. -/

/-- The example DID NFT object id (0x + 64 hex characters). -/
def exampleDid : String :=
  "0x35849ea49b6e4abfd3628d33cca0c6a3a5ba05c05e0aa1f6d52cf3105cfd2f10"

/-- The example user address. -/
def exampleUser : String := PROTOCOL_ADDRESS

/-- The example enclave verification digest (44 base-58 characters). -/
def exampleEnclaveDigest : String :=
  "BHKjhBHFyvZZPjpSxLCR5MqHCjKxHPJvqxKQHKjV9H9V"

/-- The example settlement transaction digest returned by the ledger. -/
def examplePaymentDigest : String :=
  "7rDBN3iAZc4C7C8vNZcxtbazN79PExua2pTtxu75Mxj8"

/-- A second, distinct transaction digest (also from the README). -/
def otherPaymentDigest : String :=
  "AWGzdUXy9Cp3Z8XcMeqh2oAGwPmFoXXjSnBek2ydd3UN"

/-- The example well-formed settlement request. -/
def exampleRequest : SettleRequest :=
  { enclaveTxDigest := some exampleEnclaveDigest
    didVerifiedId := some exampleDid
    didNftName := some "Age Verification NFT"
    userAddress := some exampleUser }

/-- A committed settlement row for the example request. -/
def exampleRow : Row :=
  { enclave_tx_digest := exampleEnclaveDigest
    did_verified_id := exampleDid
    did_nft_name := some "Age Verification NFT"
    protocol_uid := PROTOCOL_UID
    protocol_name := some PROTOCOL_NAME
    protocol_address := some PROTOCOL_ADDRESS
    user_address := exampleUser
    payment_tx_digest := examplePaymentDigest
    settlement_amount := some SETTLEMENT_FEE
    timestamp := 5
    status := "success" }

/-- A stored row for the same DID whose status is not `success`. -/
def failedRow : Row :=
  { exampleRow with status := "failed", payment_tx_digest := otherPaymentDigest }

/-- An insert input for the example settlement. -/
def settlementInA : SettlementRecord :=
  { enclave_tx_digest := exampleEnclaveDigest
    did_verified_id := exampleDid
    did_nft_name := some "Age Verification NFT"
    protocol_uid := PROTOCOL_UID
    protocol_name := some PROTOCOL_NAME
    protocol_address := some PROTOCOL_ADDRESS
    user_address := exampleUser
    payment_tx_digest := examplePaymentDigest
    settlement_amount := some SETTLEMENT_FEE
    timestamp := some 5
    status := some "success" }

/-- An insert input with the SAME `did_verified_id` as `settlementInA` but a
different `payment_tx_digest`. -/
def settlementInB : SettlementRecord :=
  { settlementInA with payment_tx_digest := otherPaymentDigest }

/-- An insert input with a non-success status, as `storeSettlement` accepts. -/
def settlementInFailed : SettlementRecord :=
  { settlementInA with payment_tx_digest := otherPaymentDigest
                       status := some "failed" }

example : isValidSuiId exampleDid = true := by decide
example : isValidSuiId exampleUser = true := by decide
example : isValidTxDigest exampleEnclaveDigest = true := by decide
example : isValidTxDigest examplePaymentDigest = true := by decide
example : isValidSuiId "0x1234" = false := by decide
example : isValidTxDigest "0OIl" = false := by decide

/-! Theorems settling the claims. -/

/-- **C7**: the identifier validators are total, deterministic boolean
functions (they are Lean functions, hence never throw): `isValidSuiId`
returns `true` exactly on the strings that are the fixed prefix `0x`
followed by exactly 64 hexadecimal characters, and `isValidTxDigest`
returns `true` exactly on the strings made solely of base-58 alphabet
characters whose length is 43 or 44. -/
theorem c7_validators_characterisation (s : String) :
    (isValidSuiId s = true ↔
      ∃ rest : List Char, s.toList = '0' :: 'x' :: rest ∧
        rest.length = 64 ∧ ∀ c ∈ rest, isHexDigit c = true) ∧
    (isValidTxDigest s = true ↔
      ((s.toList.length = 43 ∨ s.toList.length = 44) ∧
        ∀ c ∈ s.toList, isBase58Char c = true)) := by
  constructor
  · constructor
    · intro h
      unfold isValidSuiId at h
      simp only [Bool.and_eq_true, beq_iff_eq, List.all_eq_true] at h
      obtain ⟨⟨htake, hlen⟩, hall⟩ := h
      refine ⟨s.toList.drop 2, ?_, ?_, hall⟩
      · conv_lhs => rw [← List.take_append_drop 2 s.toList]
        rw [htake]
        rfl
      · rw [List.length_drop, hlen]
    · rintro ⟨rest, hl, hlen, hall⟩
      unfold isValidSuiId
      simp only [Bool.and_eq_true, beq_iff_eq, List.all_eq_true]
      rw [hl]
      refine ⟨⟨rfl, by simp [hlen]⟩, by simpa using hall⟩
  · unfold isValidTxDigest
    simp only [Bool.and_eq_true, Bool.or_eq_true, beq_iff_eq, List.all_eq_true]

/-- **C1**: refuted on the code — the table that `initDatabase` creates has
no unique constraint on `did_verified_id` (only a non-unique index), so the
store accepts a second row with the same subjectId: two inserts with equal
`did_verified_id` and distinct `payment_tx_digest` both succeed, leaving
two rows for one subjectId. -/
theorem c1_no_subjectId_uniqueness :
    ∃ db1 db2 : Store,
      storeSettlement [] 5 settlementInA = Except.ok db1 ∧
      storeSettlement db1 6 settlementInB = Except.ok db2 ∧
      settlementInB.did_verified_id = settlementInA.did_verified_id ∧
      (db2.filter
        (fun r => r.did_verified_id == settlementInA.did_verified_id)).length
        = 2 ∧
      "did_verified_id" ∉ uniqueColumns := by
  refine ⟨_, _, rfl, rfl, rfl, by decide, by decide⟩

/-- **C2**: refuted at startup — `initDatabase`, which runs on every process
start, executes `DROP TABLE IF EXISTS nft_settlements`, so a settlement row
present before initialization is gone afterwards. -/
theorem c2_initDatabase_deletes_rows :
    ([exampleRow] : Store) ≠ [] ∧
    initDatabase [exampleRow] = [] ∧
    exampleRow ∉ initDatabase [exampleRow] := by
  refine ⟨by simp, rfl, by simp [initDatabase]⟩

/-- **C4**: if any required field is missing (absent or empty), or
`didVerifiedId`/`userAddress` fails the 0x + 64-hex check, or
`enclaveTxDigest` fails the base-58 43–44 check, then the controller
responds 400 (`reject400` always has status 400), the store is untouched
and no store read, store write or ledger call happens. -/
theorem c4_validation_rejects_before_effects (db : Store)
    (ledger : Except String TxResult) (now : Nat) (req : SettleRequest)
    (h : fieldPresent req.enclaveTxDigest = false ∨
         fieldPresent req.didVerifiedId = false ∨
         fieldPresent req.userAddress = false ∨
         isValidSuiId (req.didVerifiedId.getD "") = false ∨
         isValidSuiId (req.userAddress.getD "") = false ∨
         isValidTxDigest (req.enclaveTxDigest.getD "") = false) :
    ∃ msg, settleNftPayment db ledger now req =
      ⟨reject400 msg, db, 0, 0, 0⟩ ∧ (reject400 msg).status = 400 := by
  cases h1 : fieldPresent req.enclaveTxDigest with
  | false =>
    exact ⟨"enclaveTxDigest is required",
      by simp [settleNftPayment, h1], rfl⟩
  | true =>
  cases h2 : fieldPresent req.didVerifiedId with
  | false =>
    exact ⟨"didVerifiedId is required",
      by simp [settleNftPayment, h1, h2], rfl⟩
  | true =>
  cases h3 : fieldPresent req.userAddress with
  | false =>
    exact ⟨"userAddress is required",
      by simp [settleNftPayment, h1, h2, h3], rfl⟩
  | true =>
  rcases h with h | h | h | h | h | h
  · rw [h1] at h; cases h
  · rw [h2] at h; cases h
  · rw [h3] at h; cases h
  · exact ⟨"Invalid didVerifiedId format. Expected 0x + 64 hex characters",
      by simp [settleNftPayment, h1, h2, h3, h], rfl⟩
  · cases h4 : isValidSuiId (req.didVerifiedId.getD "") with
    | false =>
      exact ⟨"Invalid didVerifiedId format. Expected 0x + 64 hex characters",
        by simp [settleNftPayment, h1, h2, h3, h4], rfl⟩
    | true =>
      exact ⟨"Invalid userAddress format. Expected 0x + 64 hex characters",
        by simp [settleNftPayment, h1, h2, h3, h4, h], rfl⟩
  · cases h4 : isValidSuiId (req.didVerifiedId.getD "") with
    | false =>
      exact ⟨"Invalid didVerifiedId format. Expected 0x + 64 hex characters",
        by simp [settleNftPayment, h1, h2, h3, h4], rfl⟩
    | true =>
      cases h5 : isValidSuiId (req.userAddress.getD "") with
      | false =>
        exact ⟨"Invalid userAddress format. Expected 0x + 64 hex characters",
          by simp [settleNftPayment, h1, h2, h3, h4, h5], rfl⟩
      | true =>
        exact
          ⟨"Invalid enclaveTxDigest format. Expected base58 transaction digest",
            by simp [settleNftPayment, h1, h2, h3, h4, h5, h], rfl⟩

/-- Witness for C4 at the empty request. -/
theorem c4_validation_rejects_before_effects_witness :
    (fieldPresent (none : Option String) = false ∨
     fieldPresent (none : Option String) = false ∨
     fieldPresent (none : Option String) = false ∨
     isValidSuiId ((none : Option String).getD "") = false ∨
     isValidSuiId ((none : Option String).getD "") = false ∨
     isValidTxDigest ((none : Option String).getD "") = false) ∧
    ∃ msg, settleNftPayment [] (Except.error "transport") 0
        ⟨none, none, none, none⟩ =
      ⟨reject400 msg, [], 0, 0, 0⟩ ∧ (reject400 msg).status = 400 :=
  ⟨Or.inl rfl,
    c4_validation_rejects_before_effects [] (Except.error "transport") 0
      ⟨none, none, none, none⟩ (Or.inl rfl)⟩

/-- **C10**: at the settle endpoint an empty-string required field is
treated exactly like an absent one — the presence guard is a JavaScript
truthiness test — and the request is rejected 400 with no store read,
store write or ledger call. -/
theorem c10_empty_string_like_missing (db : Store)
    (ledger : Except String TxResult) (now : Nat) (req : SettleRequest) :
    (settleNftPayment db ledger now { req with enclaveTxDigest := some "" } =
       settleNftPayment db ledger now { req with enclaveTxDigest := none } ∧
     ∃ msg, settleNftPayment db ledger now
         { req with enclaveTxDigest := some "" } =
       ⟨reject400 msg, db, 0, 0, 0⟩) ∧
    (settleNftPayment db ledger now { req with didVerifiedId := some "" } =
       settleNftPayment db ledger now { req with didVerifiedId := none } ∧
     ∃ msg, settleNftPayment db ledger now
         { req with didVerifiedId := some "" } =
       ⟨reject400 msg, db, 0, 0, 0⟩) ∧
    (settleNftPayment db ledger now { req with userAddress := some "" } =
       settleNftPayment db ledger now { req with userAddress := none } ∧
     ∃ msg, settleNftPayment db ledger now
         { req with userAddress := some "" } =
       ⟨reject400 msg, db, 0, 0, 0⟩) := by
  have e0 : fieldPresent (some "") = false := rfl
  have e1 : fieldPresent (none : Option String) = false := rfl
  refine ⟨⟨rfl, ⟨_, rfl⟩⟩, ⟨?_, ?_⟩, ⟨?_, ?_⟩⟩
  · cases h1 : fieldPresent req.enclaveTxDigest <;>
      simp [settleNftPayment, h1, e0, e1]
  · cases h1 : fieldPresent req.enclaveTxDigest
    · exact ⟨"enclaveTxDigest is required",
        by simp [settleNftPayment, h1, e0]⟩
    · exact ⟨"didVerifiedId is required",
        by simp [settleNftPayment, h1, e0]⟩
  · cases h1 : fieldPresent req.enclaveTxDigest <;>
      cases h2 : fieldPresent req.didVerifiedId <;>
      simp [settleNftPayment, h1, h2, e0, e1]
  · cases h1 : fieldPresent req.enclaveTxDigest <;>
      cases h2 : fieldPresent req.didVerifiedId
    · exact ⟨"enclaveTxDigest is required",
        by simp [settleNftPayment, h1, h2, e0]⟩
    · exact ⟨"enclaveTxDigest is required",
        by simp [settleNftPayment, h1, h2, e0]⟩
    · exact ⟨"didVerifiedId is required",
        by simp [settleNftPayment, h1, h2, e0]⟩
    · exact ⟨"userAddress is required",
        by simp [settleNftPayment, h1, h2, e0]⟩

/-- If some success row for a DID exists, the point lookup finds a row. -/
theorem isNftSettled_imp_lookup (db : Store) (d : String)
    (h : isNftSettled db d = true) :
    ∃ r, getSettlementByNftId db d = some r := by
  unfold isNftSettled at h
  unfold getSettlementByNftId
  rw [List.any_eq_true] at h
  obtain ⟨r, hr, hp⟩ := h
  rw [Bool.and_eq_true] at hp
  have hmem : r ∈ db.filter (fun x => x.did_verified_id == d) :=
    List.mem_filter.mpr ⟨hr, hp.1⟩
  cases hfil : (db.filter (fun x => x.did_verified_id == d)).head? with
  | some a => exact ⟨a, rfl⟩
  | none =>
    rw [List.head?_eq_none_iff] at hfil
    rw [hfil] at hmem
    exact absurd hmem (List.not_mem_nil r)

/-- **C5**: a well-formed request whose DID already has a successful record
short-circuits to 409 carrying the existing record found by
`getSettlementByNftId`, with no ledger call, no insert and the store
unchanged — the duplicate check decides before the on-chain call is ever
consulted. -/
theorem c5_duplicate_conflict_before_ledger (db : Store)
    (ledger : Except String TxResult) (now : Nat) (req : SettleRequest)
    (h1 : fieldPresent req.enclaveTxDigest = true)
    (h2 : fieldPresent req.didVerifiedId = true)
    (h3 : fieldPresent req.userAddress = true)
    (h4 : isValidSuiId (req.didVerifiedId.getD "") = true)
    (h5 : isValidSuiId (req.userAddress.getD "") = true)
    (h6 : isValidTxDigest (req.enclaveTxDigest.getD "") = true)
    (hdup : isNftSettled db (req.didVerifiedId.getD "") = true) :
    settleNftPayment db ledger now req =
      ⟨conflict409 (getSettlementByNftId db (req.didVerifiedId.getD "")),
        db, 2, 0, 0⟩ ∧
    (settleNftPayment db ledger now req).response.status = 409 ∧
    (∃ r, getSettlementByNftId db (req.didVerifiedId.getD "") = some r ∧
      (settleNftPayment db ledger now req).response.record = some r) := by
  have heq : settleNftPayment db ledger now req =
      ⟨conflict409 (getSettlementByNftId db (req.didVerifiedId.getD "")),
        db, 2, 0, 0⟩ := by
    simp [settleNftPayment, h1, h2, h3, h4, h5, h6, hdup]
  obtain ⟨r, hr⟩ := isNftSettled_imp_lookup db (req.didVerifiedId.getD "") hdup
  exact ⟨heq, by rw [heq]; rfl, r, hr, by rw [heq, hr]; rfl⟩

/-- Witness for C5: the example request against a store already holding the
example settlement. -/
theorem c5_duplicate_conflict_before_ledger_witness :
    (fieldPresent exampleRequest.enclaveTxDigest = true ∧
     fieldPresent exampleRequest.didVerifiedId = true ∧
     fieldPresent exampleRequest.userAddress = true ∧
     isValidSuiId (exampleRequest.didVerifiedId.getD "") = true ∧
     isValidSuiId (exampleRequest.userAddress.getD "") = true ∧
     isValidTxDigest (exampleRequest.enclaveTxDigest.getD "") = true ∧
     isNftSettled [exampleRow] (exampleRequest.didVerifiedId.getD "") = true) ∧
    (settleNftPayment [exampleRow] (Except.error "transport") 7
        exampleRequest =
      ⟨conflict409 (getSettlementByNftId [exampleRow]
          (exampleRequest.didVerifiedId.getD "")), [exampleRow], 2, 0, 0⟩ ∧
     (settleNftPayment [exampleRow] (Except.error "transport") 7
        exampleRequest).response.status = 409 ∧
     (∃ r, getSettlementByNftId [exampleRow]
          (exampleRequest.didVerifiedId.getD "") = some r ∧
        (settleNftPayment [exampleRow] (Except.error "transport") 7
          exampleRequest).response.record = some r)) :=
  ⟨⟨by decide, by decide, by decide, by decide, by decide, by decide,
      by decide⟩,
    c5_duplicate_conflict_before_ledger [exampleRow] (Except.error "transport")
      7 exampleRequest (by decide) (by decide) (by decide) (by decide)
      (by decide) (by decide) (by decide)⟩

/-- The ledger behaviour counts as successful iff the call returned (did
not throw) and its effects report executionStatus success. -/
def ledgerSucceeded (ledger : Except String TxResult) : Bool :=
  match ledger with
  | Except.error _ => false
  | Except.ok r => txSucceeded r

/-- An aborted ledger result (abort code 3: already settled on-chain). -/
def abortedResult : TxResult :=
  { digest := examplePaymentDigest
    effectsStatus := some "failure"
    effectsError := none
    abortCode := some 3 }

/-- The same aborted result with abort code 2 (insufficient vault funds). -/
def abortedResult2 : TxResult :=
  { abortedResult with abortCode := some 2 }

/-- **C6**: whenever the ledger call does not end in executionStatus
success — an on-chain abort or a thrown transport error — no settlement
row is inserted: the store after the run equals the store before it and
the write count is zero (for every request, valid or not). -/
theorem c6_no_insert_without_ledger_success (db : Store)
    (ledger : Except String TxResult) (now : Nat) (req : SettleRequest)
    (h : ledgerSucceeded ledger = false) :
    (settleNftPayment db ledger now req).db = db ∧
    (settleNftPayment db ledger now req).dbWrites = 0 := by
  cases h1 : fieldPresent req.enclaveTxDigest with
  | false => simp [settleNftPayment, h1]
  | true =>
  cases h2 : fieldPresent req.didVerifiedId with
  | false => simp [settleNftPayment, h1, h2]
  | true =>
  cases h3 : fieldPresent req.userAddress with
  | false => simp [settleNftPayment, h1, h2, h3]
  | true =>
  cases h4 : isValidSuiId (req.didVerifiedId.getD "") with
  | false => simp [settleNftPayment, h1, h2, h3, h4]
  | true =>
  cases h5 : isValidSuiId (req.userAddress.getD "") with
  | false => simp [settleNftPayment, h1, h2, h3, h4, h5]
  | true =>
  cases h6 : isValidTxDigest (req.enclaveTxDigest.getD "") with
  | false => simp [settleNftPayment, h1, h2, h3, h4, h5, h6]
  | true =>
  cases h7 : isNftSettled db (req.didVerifiedId.getD "") with
  | true => simp [settleNftPayment, h1, h2, h3, h4, h5, h6, h7]
  | false =>
  cases ledger with
  | error e => simp [settleNftPayment, h1, h2, h3, h4, h5, h6, h7]
  | ok result =>
    have h8 : txSucceeded result = false := by
      simpa [ledgerSucceeded] using h
    simp [settleNftPayment, h1, h2, h3, h4, h5, h6, h7, h8]

/-- Witness for C6: the example request against an empty store and an
aborted ledger result. -/
theorem c6_no_insert_without_ledger_success_witness :
    ledgerSucceeded (Except.ok abortedResult) = false ∧
    ((settleNftPayment [] (Except.ok abortedResult) 7 exampleRequest).db = []
      ∧ (settleNftPayment [] (Except.ok abortedResult) 7
          exampleRequest).dbWrites = 0) :=
  ⟨rfl, c6_no_insert_without_ledger_success [] (Except.ok abortedResult) 7
    exampleRequest rfl⟩

/-- **C3** counterexample: the controller never inspects the abort code.
Two aborted results differing only in abort code (3 = already settled
versus 2 = insufficient vault funds) produce the very same failure
response; its text is the generic passthrough, not a code-specific
message.  The ledger's txId is indeed included. -/
theorem c3_counterexample :
    (settleNftPayment [] (Except.ok abortedResult) 7
        exampleRequest).response =
      (settleNftPayment [] (Except.ok abortedResult2) 7
        exampleRequest).response ∧
    abortedResult.abortCode ≠ abortedResult2.abortCode ∧
    (settleNftPayment [] (Except.ok abortedResult) 7
        exampleRequest).response.error =
      some "Transaction failed: Unknown error" ∧
    (settleNftPayment [] (Except.ok abortedResult) 7
        exampleRequest).response.digest = some examplePaymentDigest :=
  ⟨rfl, by decide, rfl, rfl⟩

/-- **C3** amended: for every valid, not-yet-settled request whose ledger
call returns without executionStatus success, the failure response is 500
with text `Transaction failed: ` followed by the ledger's raw error string
(`Unknown error` when absent) — no abort-code mapping — and it carries the
ledger's own txId (digest). -/
theorem c3_abort_response_raw_passthrough (db : Store) (now : Nat)
    (req : SettleRequest) (result : TxResult)
    (h1 : fieldPresent req.enclaveTxDigest = true)
    (h2 : fieldPresent req.didVerifiedId = true)
    (h3 : fieldPresent req.userAddress = true)
    (h4 : isValidSuiId (req.didVerifiedId.getD "") = true)
    (h5 : isValidSuiId (req.userAddress.getD "") = true)
    (h6 : isValidTxDigest (req.enclaveTxDigest.getD "") = true)
    (h7 : isNftSettled db (req.didVerifiedId.getD "") = false)
    (hfail : txSucceeded result = false) :
    (settleNftPayment db (Except.ok result) now req).response =
      { status := 500, success := false
        error := some ("Transaction failed: " ++
          result.effectsError.getD "Unknown error")
        message := none, record := none, payload := none
        digest := some result.digest } := by
  simp [settleNftPayment, h1, h2, h3, h4, h5, h6, h7, hfail]

/-- Witness for the amended C3 at the example request and an aborted
result. -/
theorem c3_abort_response_raw_passthrough_witness :
    (fieldPresent exampleRequest.enclaveTxDigest = true ∧
     fieldPresent exampleRequest.didVerifiedId = true ∧
     fieldPresent exampleRequest.userAddress = true ∧
     isValidSuiId (exampleRequest.didVerifiedId.getD "") = true ∧
     isValidSuiId (exampleRequest.userAddress.getD "") = true ∧
     isValidTxDigest (exampleRequest.enclaveTxDigest.getD "") = true ∧
     isNftSettled [] (exampleRequest.didVerifiedId.getD "") = false ∧
     txSucceeded abortedResult = false) ∧
    (settleNftPayment [] (Except.ok abortedResult) 7
        exampleRequest).response =
      { status := 500, success := false
        error := some ("Transaction failed: " ++
          abortedResult.effectsError.getD "Unknown error")
        message := none, record := none, payload := none
        digest := some abortedResult.digest } :=
  ⟨⟨by decide, by decide, by decide, by decide, by decide, by decide, rfl,
      rfl⟩,
    c3_abort_response_raw_passthrough [] 7 exampleRequest abortedResult
      (by decide) (by decide) (by decide) (by decide) (by decide) (by decide)
      rfl rfl⟩

/-- **C9** counterexample: the two queries disagree on a store holding a
non-success row (which `storeSettlement` accepts): `isNftSettled` filters
on status `success` and answers `false`, while `getSettlementByNftId`
ignores status and returns the row. -/
theorem c9_counterexample :
    storeSettlement [] 5 settlementInFailed = Except.ok [failedRow] ∧
    isNftSettled [failedRow] exampleDid = false ∧
    getSettlementByNftId [failedRow] exampleDid = some failedRow := by
  exact ⟨rfl, by decide, by decide⟩

/-- **C9** amended: on every store whose rows all carry status `success` —
which is every row the settlement flow itself ever writes — the existence
check agrees with the point lookup: `isNftSettled` answers `true` iff
`getSettlementByNftId` returns a record. -/
theorem c9_exists_agrees_with_lookup (db : Store) (d : String)
    (h : ∀ r ∈ db, r.status = "success") :
    (isNftSettled db d = true ↔ ∃ r, getSettlementByNftId db d = some r) := by
  constructor
  · exact isNftSettled_imp_lookup db d
  · rintro ⟨r, hr⟩
    unfold getSettlementByNftId at hr
    have hmem : r ∈ db.filter (fun x => x.did_verified_id == d) :=
      List.mem_of_mem_head? (Option.mem_def.mpr hr)
    have hmem2 := List.mem_filter.mp hmem
    unfold isNftSettled
    rw [List.any_eq_true]
    refine ⟨r, hmem2.1, ?_⟩
    rw [Bool.and_eq_true]
    exact ⟨hmem2.2, by simp [h r hmem2.1]⟩

/-- Witness for the amended C9 on a one-row all-success store. -/
theorem c9_exists_agrees_with_lookup_witness :
    (∀ r ∈ ([exampleRow] : Store), r.status = "success") ∧
    (isNftSettled [exampleRow] exampleDid = true ↔
      ∃ r, getSettlementByNftId [exampleRow] exampleDid = some r) :=
  ⟨by decide, c9_exists_agrees_with_lookup [exampleRow] exampleDid
    (by decide)⟩

/-- Concatenating the first `n` successive `k`-sized chunks of a list
yields its first `n * k` elements. -/
theorem flatMap_chunks_take (l : List Row) (k : Nat) (n : Nat) :
    (List.range n).flatMap (fun i => (l.drop (i * k)).take k) =
      l.take (n * k) := by
  induction n with
  | zero => simp
  | succ m ih =>
    rw [List.range_succ, List.flatMap_append, ih]
    simp [Nat.succ_mul, List.take_add]

/-- A list's length never exceeds its ceiling-division page count times the
page size. -/
theorem length_le_ceil_mul (N k : Nat) (hk : 0 < k) :
    N ≤ (N + k - 1) / k * k := by
  have h1 : (N + k - 1) % k < k := Nat.mod_lt _ hk
  have h2 : (N + k - 1) / k * k + (N + k - 1) % k = N + k - 1 :=
    Nat.div_add_mod' _ _
  generalize (N + k - 1) / k * k = m at h2 ⊢
  generalize (N + k - 1) % k = r at h1 h2
  omega

/-- **C8**: pagination round-trip for the spec-modelled `listPage`: with
page size `k > 0`, concatenating the `ceil(N/k)` successive pages
reproduces exactly the newest-first store, with no duplicates and no
omissions; with `limit` absent one call returns all rows. -/
theorem c8_pagination_round_trip (db : Store) (k : Nat) (hk : 0 < k) :
    (List.range ((db.length + k - 1) / k)).flatMap
        (fun i => (listPage db (some k) (some (i * k))).1) = db ∧
    (listPage db none none).1 = db := by
  constructor
  · have h := flatMap_chunks_take db k ((db.length + k - 1) / k)
    have h2 := length_le_ceil_mul db.length k hk
    calc (List.range ((db.length + k - 1) / k)).flatMap
          (fun i => (listPage db (some k) (some (i * k))).1)
        = db.take ((db.length + k - 1) / k * k) := h
      _ = db := List.take_of_length_le h2
  · rfl

/-- Witness for C8: three rows listed in pages of two. -/
theorem c8_pagination_round_trip_witness :
    0 < 2 ∧
    ((List.range ((([exampleRow, failedRow, exampleRow] : Store).length
          + 2 - 1) / 2)).flatMap
        (fun i => (listPage [exampleRow, failedRow, exampleRow] (some 2)
          (some (i * 2))).1) = [exampleRow, failedRow, exampleRow] ∧
     (listPage [exampleRow, failedRow, exampleRow] none none).1 =
       [exampleRow, failedRow, exampleRow]) :=
  ⟨by decide, c8_pagination_round_trip [exampleRow, failedRow, exampleRow] 2
    (by decide)⟩

end SuiVerify
